import Mathlib

/-
Verification of src/src/server.rs (feoblog web server module).

The embedding translates the pure decision logic of the server handlers.
Collaborators that live outside this file in the real program, namely the
sqlite backend, the ed25519 signature check and the protobuf codec, are
represented either as explicit data (the list of stored rows, the list of
known users) following the spec contracts or as function fields of an
environment record, so that every handler becomes a total function of its
environment and its request.

Machine integers: the Rust code uses usize for lengths and i64 for
timestamps. Lengths are modelled as Nat and timestamps as Int; none of the
verified paths perform arithmetic that can overflow at these widths.
-/

set_option autoImplicit false

namespace FeoBlog

/-- UserID wraps the 32 public key bytes; only equality matters to server.rs. -/
structure UserID where
  bytes : List Nat
deriving DecidableEq

/-- Signature wraps the 64 signature bytes; only equality matters to server.rs. -/
structure Signature where
  bytes : List Nat
deriving DecidableEq

/-- Timestamp mirrors backend::Timestamp, milliseconds since the unix epoch. -/
structure Timestamp where
  unix_utc_ms : Int
deriving DecidableEq

/-- Mirror of protos::Item_oneof_item_type: the protobuf oneof of Item. -/
inductive Item_oneof_item_type where
  | post (title : String) (body : String)
  | profile (display_name : String) (about : String) (follows : List (UserID × String))
deriving DecidableEq

/-- Mirror of protos::Item. A missing oneof (item_type = none) is an item
variant newer than this server knows about. -/
structure Item where
  timestamp_ms_utc : Int
  utc_offset_minutes : Int
  item_type : Option Item_oneof_item_type
deriving DecidableEq

/-- Item with all protobuf fields at their default values, like Item::new(). -/
def Item.new : Item :=
  { timestamp_ms_utc := 0, utc_offset_minutes := 0, item_type := none }

/-- Mirror of protobuf get_profile().display_name: the profile display name,
or the default empty string when the item is not a profile. -/
def Item.get_profile_display_name (item : Item) : String :=
  match item.item_type with
  | some (.profile display_name _ _) => display_name
  | _ => ""

/-- Mirror of backend::ItemRow, the persisted record of one accepted item. -/
structure ItemRow where
  user : UserID
  signature : Signature
  timestamp : Timestamp
  received : Timestamp
  item_bytes : List Nat
deriving DecidableEq

/-- Mirror of backend::ItemDisplayRow: an ItemRow plus an optional resolved
author display name. -/
structure ItemDisplayRow where
  item : ItemRow
  display_name : Option String
deriving DecidableEq

/-- Mirror of protos::ItemType, the tag enum used in ItemListEntry. -/
inductive ItemType where
  | UNKNOWN
  | POST
  | PROFILE
deriving DecidableEq

/-- Mirror of protos::ItemListEntry (the fields item_to_entry sets). -/
structure ItemListEntry where
  timestamp_ms_utc : Int
  signature : Signature
  user_id : UserID
  item_type : ItemType
deriving DecidableEq

/-- Mirror of server.rs IndexPageItem: a row paired with its decoded item. -/
structure IndexPageItem where
  row : ItemDisplayRow
  item : Item
deriving DecidableEq

/-- Mirror of server.rs item_to_entry. -/
def item_to_entry (item : Item) (user_id : UserID) (signature : Signature) : ItemListEntry :=
  { timestamp_ms_utc := item.timestamp_ms_utc
    signature := signature
    user_id := user_id
    item_type :=
      match item.item_type with
      | some (.post _ _) => ItemType.POST
      | some (.profile _ _ _) => ItemType.PROFILE
      | none => ItemType.UNKNOWN }

/-- Mirror of server.rs display_by_default: true only for the post variant. -/
def display_by_default (item : Item) : Bool :=
  match item.item_type with
  | none => false
  | some (.post _ _) => true
  | some (.profile _ _ _) => false

/-- Mirror of server.rs bound: clamp input between lower and upper. -/
def bound {T : Type} [LinearOrder T] (input lower upper : T) : T :=
  min (max lower input) upper

/-- Modelled from the spec: the ItemStore state behind backend::Backend.
The sqlite implementation is not under src/, so the store is represented by
its observable contents: the persisted rows, the configured known users, the
per user quota usage and budget, and the latest profile pointer. -/
structure Backend where
  rows : List ItemRow
  knownUsers : List UserID
  usage : UserID → Nat
  budget : UserID → Nat
  profileRow : UserID → Option ItemRow

/-- Modelled from the spec: userItemExists(user, signature), the idempotency
probe, true when a row with that primary key is stored. -/
def Backend.user_item_exists (b : Backend) (u : UserID) (s : Signature) : Bool :=
  b.rows.any (fun r => decide (r.user = u ∧ r.signature = s))

/-- Modelled from the spec: userKnown(user), the whitelist gate for the
identities the node has been configured to trust. -/
def Backend.user_known (b : Backend) (u : UserID) : Bool :=
  b.knownUsers.any (fun k => decide (k = u))

/-- Modelled from the spec: userItem(user, signature), the point lookup. -/
def Backend.user_item (b : Backend) (u : UserID) (s : Signature) : Option ItemRow :=
  b.rows.find? (fun r => decide (r.user = u ∧ r.signature = s))

/-- Modelled from the spec: userProfile(user), the latest profile pointer. -/
def Backend.user_profile (b : Backend) (u : UserID) : Option ItemRow :=
  b.profileRow u

/-- Modelled from the spec, section 4.4: quotaCheckItem returns none exactly
when currentUsage(user) + len(bytes) <= budget(user), else a deny reason. -/
def Backend.quota_check_item (b : Backend) (u : UserID) (bytes : List Nat) (_item : Item) :
    Option String :=
  if b.usage u + bytes.length ≤ b.budget u then none
  else some "Quota exceeded"

/-- Environment of collaborator functions used by the handlers: signature
verification (ed25519, outside src/), the protobuf decode of Item bytes
(merge_from_bytes), the structural validation (Item::validate), the clock,
and the backend store. -/
structure Env where
  backend : Backend
  sigValid : Signature → UserID → List Nat → Bool
  decodeItem : List Nat → Except String Item
  validateItem : Item → Except String Unit
  now : Timestamp

/-- One submitted item as put_item sees it: path parameters already decoded
from base58 (that decoding precedes the pipeline and is not part of the
claims), the raw content-length header if present, and the payload chunks.
Transport level chunk failures are I/O and are not modelled. -/
structure Submission where
  user : UserID
  signature : Signature
  content_length : Option String
  chunks : List (List Nat)

/-- Mirror of server.rs MAX_ITEM_SIZE. -/
def MAX_ITEM_SIZE : Nat := 1024 * 32

/-- Modelled from the spec: the str::parse::<usize> call of put_item line 733
is standard library code, not under src/. A nonempty all-digit string parses
to its decimal value; anything else fails. The overflow bound of usize and
the optional leading plus sign are not reached by any claim and are not
modelled. -/
def parse_usize (s : String) : Option Nat :=
  if s.data ≠ [] ∧ s.data.all Char.isDigit then
    some (s.data.foldl (fun n c => n * 10 + (c.toNat - 48)) 0)
  else none

/-- Mirror of the byte accumulation loop in put_item, lines 771 to 775: every
chunk is appended to the buffer; there is no size check in the loop. -/
def accumulate_body (chunks : List (List Nat)) : List Nat :=
  chunks.foldl (fun bytes chunk => bytes ++ chunk) []

/-- Mirror of the two statements item.merge_from_bytes(&bytes) followed by
item.validate() in put_item, both propagating their error. -/
def decode_and_validate (env : Env) (bytes : List Nat) : Except String Item :=
  match env.decodeItem bytes with
  | .error e => .error e
  | .ok item =>
    match env.validateItem item with
    | .error e => .error e
    | .ok _ => .ok item

/-- Stages of the admission pipeline, recorded as put_item performs them. -/
inductive Check where
  | lengthCheck
  | existenceCheck
  | accessCheck
  | signatureCheck
  | decodeCheck
  | timestampCheck
  | quotaCheck
  | persist
deriving DecidableEq

/-- The full pipeline order from the spec, section 4.3. -/
def checkOrder : List Check :=
  [Check.lengthCheck, Check.existenceCheck, Check.accessCheck, Check.signatureCheck,
   Check.decodeCheck, Check.timestampCheck, Check.quotaCheck, Check.persist]

/-- The distinct HTTP responses put_item can produce. genericError is the
propagated failure::Error path (the question mark operator), which actix
renders as a 500 internal server error whose body is the error display text. -/
inductive Outcome where
  | lengthRequired (body : String)
  | badRequest (body : String)
  | payloadTooLarge (body : String)
  | accepted (body : String)
  | forbidden (body : String)
  | genericError (msg : String)
  | insufficientStorage (body : String)
  | created (body : String)
deriving DecidableEq

/-- Result of one run of put_item: the response, the checks that ran in
order, and the store rows after the request. -/
structure PutResult where
  outcome : Outcome
  trace : List Check
  rows : List ItemRow
deriving DecidableEq

/-- Helper producing the apostrophe character, so the message constants can
match the Rust string literals byte for byte. -/
def apos : String := String.singleton (Char.ofNat 39)

/-- Body of the future-timestamp rejection in put_item. -/
def futureTsMsg : String := "The Item" ++ apos ++ "s timestamp is in the future"

/-- Mirror of server.rs put_item, lines 710 to 817. Each early return of the
Rust function is one branch; the trace lists the pipeline stages executed
before returning. -/
def put_item (env : Env) (sub : Submission) : PutResult :=
  let rows := env.backend.rows
  match sub.content_length with
  | none =>
    { outcome := Outcome.lengthRequired "Must include length header."
      trace := [Check.lengthCheck], rows := rows }
  | some header =>
  match parse_usize header with
  | none =>
    { outcome := Outcome.badRequest "Error parsing Length header."
      trace := [Check.lengthCheck], rows := rows }
  | some length =>
  if length > MAX_ITEM_SIZE then
    { outcome := Outcome.payloadTooLarge ( "Item must be <= " ++ toString MAX_ITEM_SIZE ++ " bytes")
      trace := [Check.lengthCheck], rows := rows }
  else if env.backend.user_item_exists sub.user sub.signature then
    { outcome := Outcome.accepted "Item already exists"
      trace := [Check.lengthCheck, Check.existenceCheck], rows := rows }
  else if !env.backend.user_known sub.user then
    { outcome := Outcome.forbidden "Unknown user ID"
      trace := [Check.lengthCheck, Check.existenceCheck, Check.accessCheck], rows := rows }
  else
    let bytes := accumulate_body sub.chunks
    if !env.sigValid sub.signature sub.user bytes then
      { outcome := Outcome.genericError "Invalid signature"
        trace := [Check.lengthCheck, Check.existenceCheck, Check.accessCheck,
                  Check.signatureCheck], rows := rows }
    else
    match decode_and_validate env bytes with
    | .error e =>
      { outcome := Outcome.genericError e
        trace := [Check.lengthCheck, Check.existenceCheck, Check.accessCheck,
                  Check.signatureCheck, Check.decodeCheck], rows := rows }
    | .ok item =>
      if item.timestamp_ms_utc > env.now.unix_utc_ms then
        { outcome := Outcome.badRequest futureTsMsg
          trace := [Check.lengthCheck, Check.existenceCheck, Check.accessCheck,
                    Check.signatureCheck, Check.decodeCheck, Check.timestampCheck], rows := rows }
      else
      match env.backend.quota_check_item sub.user bytes item with
      | some deny_reason =>
        { outcome := Outcome.insufficientStorage deny_reason
          trace := [Check.lengthCheck, Check.existenceCheck, Check.accessCheck,
                    Check.signatureCheck, Check.decodeCheck, Check.timestampCheck,
                    Check.quotaCheck], rows := rows }
      | none =>
        let message := "OK. Received " ++ toString bytes.length ++ " bytes."
        let row : ItemRow :=
          { user := sub.user, signature := sub.signature
            timestamp := { unix_utc_ms := item.timestamp_ms_utc }
            received := env.now, item_bytes := bytes }
        { outcome := Outcome.created message
          trace := [Check.lengthCheck, Check.existenceCheck, Check.accessCheck,
                    Check.signatureCheck, Check.decodeCheck, Check.timestampCheck,
                    Check.quotaCheck, Check.persist]
          rows := rows ++ [row] }

/-- Index of the first failing pipeline stage for a request, written flat in
the order of the spec state machine: 1 length, 2 existence, 3 access, 4
signature, 5 decode and validate, 6 timestamp, 7 quota, 8 all passed. -/
def firstFailure (env : Env) (sub : Submission) : Nat :=
  match sub.content_length with
  | none => 1
  | some header =>
  match parse_usize header with
  | none => 1
  | some length =>
  if length > MAX_ITEM_SIZE then 1
  else if env.backend.user_item_exists sub.user sub.signature then 2
  else if !env.backend.user_known sub.user then 3
  else if !env.sigValid sub.signature sub.user (accumulate_body sub.chunks) then 4
  else
    match decode_and_validate env (accumulate_body sub.chunks) with
    | .error _ => 5
    | .ok item =>
      if item.timestamp_ms_utc > env.now.unix_utc_ms then 6
      else
        match env.backend.quota_check_item sub.user (accumulate_body sub.chunks) item with
        | some _ => 7
        | none => 8

/-- Declared-length stage as one predicate: header present, parseable, and
not larger than MAX_ITEM_SIZE. -/
def length_ok (sub : Submission) : Bool :=
  match sub.content_length with
  | none => false
  | some header =>
    match parse_usize header with
    | none => false
    | some length => !(length > MAX_ITEM_SIZE)

/-- Mirror of server.rs Pagination, the query parameters of listing pages. -/
structure Pagination where
  before : Option Int
  count : Option Nat
deriving DecidableEq

/-- Mirror of server.rs Paginator: the pagination state plus the row mapper
and the inclusion filter, which the Rust struct stores as closures. -/
structure Paginator (T In E : Type) where
  items : List T
  has_more : Bool
  params : Pagination
  max_items : Nat
  mapper : In → Except E T
  filter : T → Bool

/-- Effective page bound computed at the top of Paginator::accept, line 515:
the requested count clamped between 1 and max_items, defaulting to max_items
when no count was requested. -/
def Paginator.max_len {T In E : Type} (p : Paginator T In E) : Nat :=
  (p.params.count.map (fun c => bound c 1 p.max_items)).getD p.max_items

/-- Mirror of Paginator::accept, lines 514 to 529. Returns the continue flag
together with the updated paginator, or the mapping error. -/
def Paginator.accept {T In E : Type} (p : Paginator T In E) (input : In) :
    Except E (Bool × Paginator T In E) :=
  match p.mapper input with
  | .error e => .error e
  | .ok item =>
    if !p.filter item then .ok (true, p)
    else if p.items.length ≥ p.max_len then .ok (false, { p with has_more := true })
    else .ok (true, { p with items := p.items ++ [item] })

/-- Mirror of Paginator::new, lines 538 to 550: empty items, max_items 100. -/
def Paginator.new {T In E : Type} (params : Pagination) (mapper : In → Except E T)
    (filter : T → Bool) : Paginator T In E :=
  { params := params, items := [], max_items := 100, has_more := false
    mapper := mapper, filter := filter }

/-- Mirror of Paginator::before, lines 566 to 568, with the clock passed
explicitly instead of calling Timestamp::now inside. -/
def Paginator.before {T In E : Type} (p : Paginator T In E) (now : Timestamp) : Timestamp :=
  (p.params.before.map (fun t => ({ unix_utc_ms := t } : Timestamp))).getD now

/-- Mirror of Paginator::more_items_link, lines 576 to 589. -/
def Paginator.more_items_link {In E : Type} (p : Paginator IndexPageItem In E)
    (base_url : String) : Option String :=
  if !p.has_more then none
  else
    match p.items.getLast? with
    | none => none
    | some last =>
      let url := base_url ++ "?before=" ++ toString last.item.timestamp_ms_utc
      match p.params.count with
      | some count => some (url ++ "&count=" ++ toString count)
      | none => some url

/-- Modelled from the spec: the rowSink contract of section 4.3. The backend
produces rows one at a time into the callback built from Paginator::accept
and must stop pulling rows as soon as the callback returns false. -/
def Paginator.run {T In E : Type} (p : Paginator T In E) :
    List In → Except E (Paginator T In E)
  | [] => .ok p
  | input :: rest =>
    match p.accept input with
    | .error e => .error e
    | .ok (true, p2) => p2.run rest
    | .ok (false, p2) => .ok p2

/-- Mirror of the max_items computation in view_homepage, line 256. -/
def view_homepage_max_items (pagination : Pagination) : Nat :=
  (pagination.count.map (fun c => bound c 1 100)).getD 20

/-- Mirror of the max_time computation in view_homepage, lines 278 to 280. -/
def view_homepage_before (pagination : Pagination) (now : Timestamp) : Timestamp :=
  (pagination.before.map (fun t => ({ unix_utc_ms := t } : Timestamp))).getD now

/-- Mirror of the More nav link built in view_homepage, lines 302 to 314:
offered only when has_more and the page is nonempty, it carries the claimed
timestamp of the last item of the page, and echoes the clamped max_items
when the request had a count parameter. -/
def view_homepage_more_href (has_more : Bool) (items : List IndexPageItem)
    (pagination : Pagination) (max_items : Nat) : Option String :=
  if has_more then
    match items.getLast? with
    | some page_item =>
      let timestamp := page_item.item.timestamp_ms_utc
      let href := "/?before=" ++ toString timestamp
      match pagination.count with
      | some _ => some (href ++ "&count=" ++ toString max_items)
      | none => some href
    | none => none
  else none

/-- Mirror of the item_callback closure in view_homepage, lines 260 to 276:
the state is the accumulated items and the has_more flag. -/
def view_homepage_accept (decodeItem : List Nat → Except String Item) (max_items : Nat)
    (state : List IndexPageItem × Bool) (row : ItemDisplayRow) :
    Except String (Bool × (List IndexPageItem × Bool)) :=
  match decodeItem row.item.item_bytes with
  | .error e => .error e
  | .ok item =>
    if !display_by_default item then .ok (true, state)
    else if state.1.length ≥ max_items then .ok (false, (state.1, true))
    else .ok (true, (state.1 ++ [{ row := row, item := item }], state.2))

/-- Modelled from the spec: homepage_items feeding rows to the view_homepage
callback and honoring its continue flag. -/
def view_homepage_run (decodeItem : List Nat → Except String Item) (max_items : Nat) :
    List ItemDisplayRow → List IndexPageItem × Bool → Except String (List IndexPageItem × Bool)
  | [], state => .ok state
  | row :: rest, state =>
    match view_homepage_accept decodeItem max_items state row with
    | .error e => .error e
    | .ok (true, state2) => view_homepage_run decodeItem max_items rest state2
    | .ok (false, state2) => .ok state2

/-- Mirror of the paginator built in get_user_feed, lines 597 to 607: default
max_items 100, filter display_by_default. -/
def get_user_feed_paginator (pagination : Pagination)
    (decodeItem : List Nat → Except String Item) :
    Paginator IndexPageItem ItemDisplayRow String :=
  Paginator.new pagination
    (fun row =>
      match decodeItem row.item.item_bytes with
      | .error e => .error e
      | .ok item => .ok { row := row, item := item })
    (fun page_item => display_by_default page_item.item)

/-- Mirror of the paginator built in feed_item_list, lines 419 to 430,
including the max_items override to 1000. -/
def feed_item_list_paginator (pagination : Pagination)
    (decodeItem : List Nat → Except String Item) :
    Paginator ItemListEntry ItemDisplayRow String :=
  { Paginator.new pagination
      (fun row =>
        match decodeItem row.item.item_bytes with
        | .error e => .error e
        | .ok item => .ok (item_to_entry item row.item.user row.item.signature))
      (fun _ => true)
    with max_items := 1000 }

/-- Mirror of the paginator built in user_item_list, lines 453 to 464,
including the max_items override to 1000. -/
def user_item_list_paginator (pagination : Pagination)
    (decodeItem : List Nat → Except String Item) :
    Paginator ItemListEntry ItemRow String :=
  { Paginator.new pagination
      (fun row =>
        match decodeItem row.item_bytes with
        | .error e => .error e
        | .ok item => .ok (item_to_entry item row.user row.signature))
      (fun _ => true)
    with max_items := 1000 }

/-- Mirror of the inclusion filter of user_item_list, line 460: every entry
is included, unknown variants too. -/
def user_item_list_filter : ItemListEntry → Bool := fun _ => true

/-- Mirror of the paginator built in homepage_item_list, lines 354 to 366,
including the max_items override to 1000. -/
def homepage_item_list_paginator (pagination : Pagination)
    (decodeItem : List Nat → Except String Item) :
    Paginator ItemListEntry ItemDisplayRow String :=
  { Paginator.new pagination
      (fun row =>
        match decodeItem row.item.item_bytes with
        | .error e => .error e
        | .ok item => .ok (item_to_entry item row.item.user row.item.signature))
      (fun entry => decide (entry.item_type = ItemType.POST))
    with max_items := 1000 }

/-- Mirror of the constant max_items of get_user_items, line 637. -/
def get_user_items_max_items : Nat := 10

/-- Mirror of the collect_items closure of get_user_items, lines 640 to 657,
iterated over the produced rows with the continue flag honored: the closure
pushes rows that display by default and continues while fewer than max_items
items have been collected. -/
def get_user_items_collect (decodeItem : List Nat → Except String Item) :
    List ItemRow → List IndexPageItem → Except String (List IndexPageItem)
  | [], items => .ok items
  | row :: rest, items =>
    match decodeItem row.item_bytes with
    | .error e => .error e
    | .ok item =>
      let items2 :=
        if display_by_default item then
          items ++ [{ row := { item := row, display_name := none }, item := item }]
        else items
      if items2.length < get_user_items_max_items then
        get_user_items_collect decodeItem rest items2
      else .ok items2

/-- Responses show_item can produce, HTML rendering abstracted to its data. -/
inductive ShowItemResponse where
  | notFoundPage (msg : String)
  | genericError (msg : String)
  | internalServerError (body : String)
  | okBody (body : String)
  | postPage (display_name : String) (title : String) (body : String)
      (timestamp_utc_ms : Int) (utc_offset_minutes : Int)
deriving DecidableEq

/-- Mirror of show_item, lines 820 to 886: point lookup, decode of the row
bytes, resolution of the display name from the latest profile, then dispatch
on the item variant; a missing variant tag is an internal server error. -/
def show_item (env : Env) (user_id : UserID) (signature : Signature) : ShowItemResponse :=
  match env.backend.user_item user_id signature with
  | none => ShowItemResponse.notFoundPage "No such item"
  | some row =>
    match env.decodeItem row.item_bytes with
    | .error e => ShowItemResponse.genericError e
    | .ok item =>
      let profileResult :=
        match env.backend.user_profile user_id with
        | some prow => env.decodeItem prow.item_bytes
        | none => .ok Item.new
      match profileResult with
      | .error e => ShowItemResponse.genericError e
      | .ok profItem =>
        let display_name := profItem.get_profile_display_name
        match item.item_type with
        | none => ShowItemResponse.internalServerError "No known item type provided."
        | some (.profile _ _ _) => ShowItemResponse.okBody "Profile update."
        | some (.post title body) =>
          ShowItemResponse.postPage display_name title body
            item.timestamp_ms_utc item.utc_offset_minutes

/-- Predicate that the latest profile row of a user, if any, decodes. -/
def profile_decode_ok (env : Env) (u : UserID) : Bool :=
  match env.backend.user_profile u with
  | none => true
  | some prow =>
    match env.decodeItem prow.item_bytes with
    | .ok _ => true
    | .error _ => false

/-- Modelled from the spec: protos::Item::validate is not under src/.
Section 4.2 requires that unknown future variants (item_type none) are
accepted as unknown type for storage and listing rather than rejected; the
variant specific required field rules of the known variants are not needed
by any claim and are therefore not refined here. -/
def validate_spec (item : Item) : Except String Unit :=
  match item.item_type with
  | none => .ok ()
  | some _ => .ok ()

/-- Test identity used by the concrete witnesses. -/
def u0 : UserID := { bytes := List.replicate 32 1 }

/-- Second test identity. -/
def u1 : UserID := { bytes := List.replicate 32 3 }

/-- Test signature used by the concrete witnesses. -/
def s0 : Signature := { bytes := List.replicate 64 2 }

/-- Test item: a post with claimed timestamp 5. -/
def item0 : Item :=
  { timestamp_ms_utc := 5, utc_offset_minutes := 0
    item_type := some (Item_oneof_item_type.post "title" "body") }

/-- Test item carrying an unrecognized variant tag. -/
def itemU : Item := { timestamp_ms_utc := 7, utc_offset_minutes := 0, item_type := none }

/-- Test row keyed by (u0, s0). -/
def row0 : ItemRow :=
  { user := u0, signature := s0, timestamp := { unix_utc_ms := 5 }
    received := { unix_utc_ms := 6 }, item_bytes := [1, 2, 3] }

/-- Test backend: empty store, u0 known, large budget. -/
def backend0 : Backend :=
  { rows := [], knownUsers := [u0], usage := fun _ => 0
    budget := fun _ => 1000000, profileRow := fun _ => none }

/-- Test environment where every collaborator check passes. -/
def env0 : Env :=
  { backend := backend0
    sigValid := fun _ _ _ => true
    decodeItem := fun _ => .ok item0
    validateItem := fun _ => .ok ()
    now := { unix_utc_ms := 100 } }

/-- Test submission matching env0: declared length 3, one 3 byte chunk. -/
def sub0 : Submission :=
  { user := u0, signature := s0, content_length := some "3", chunks := [[1, 2, 3]] }

/-- Test submission with no content-length header. -/
def subNoLen : Submission := { sub0 with content_length := none }

/-- Test environment whose signature check fails. -/
def envBadSig : Env := { env0 with sigValid := fun _ _ _ => false }

/-- Test environment whose protobuf decode fails. -/
def envBadDecode : Env := { env0 with decodeItem := fun _ => .error "bad protobuf" }

/-- Test environment whose store already holds row0. -/
def envDup : Env := { env0 with backend := { backend0 with rows := [row0] } }

/-- Test environment whose clock is at 3, before the claimed timestamp 5. -/
def envFut : Env := { env0 with now := { unix_utc_ms := 3 } }

/-- Submission whose declared length 10 is within bounds but whose actual
body carries MAX_ITEM_SIZE + 1 bytes. -/
def subLiar : Submission :=
  { user := u0, signature := s0, content_length := some "10"
    chunks := [List.replicate (MAX_ITEM_SIZE + 1) 0] }

/-- Test display row wrapping row0. -/
def drow0 : ItemDisplayRow := { item := row0, display_name := none }

/-- Test page item wrapping drow0 and item0. -/
def ipi0 : IndexPageItem := { row := drow0, item := item0 }

/-- Test paginator over Nat rows: mapper fails on 0, filter keeps odds. -/
def pag0 : Paginator Nat Nat String :=
  { items := [], has_more := false, params := { before := none, count := none }
    max_items := 100
    mapper := fun n => if n = 0 then .error "bad row" else .ok n
    filter := fun n => decide (n % 2 = 1) }

/-- Test paginator whose page already holds max_len items (count 1). -/
def pagFull : Paginator Nat Nat String :=
  { pag0 with items := [7], params := { before := none, count := some 1 } }

/-- Feed paginator with neither cursor nor count requested. -/
def feedPagNoCount : Paginator IndexPageItem ItemDisplayRow String :=
  get_user_feed_paginator { before := none, count := none } (fun _ => .ok item0)

/-- Paginator state as after a full page: has_more set, one item collected. -/
def pagMore : Paginator IndexPageItem ItemDisplayRow String :=
  { get_user_feed_paginator { before := some 50, count := some 20 } (fun _ => .ok item0)
    with has_more := true, items := [ipi0] }

/-- Test row whose bytes decode to the unknown variant item. -/
def rowU : ItemRow := { row0 with item_bytes := [9] }

/-- Test environment for show_item: the store holds rowU, whose bytes decode
to an item carrying no recognized variant tag. -/
def envU : Env :=
  { env0 with
    backend := { backend0 with rows := [rowU] }
    decodeItem := fun _ => .ok itemU }

/-- C1: the admission pipeline performs its checks in exactly the spec order,
stopping at the first failure: the executed trace is always the take of the
fixed check order at the first failing stage, so no later check runs. -/
theorem admission_checks_in_order (env : Env) (sub : Submission) :
    (put_item env sub).trace = checkOrder.take (firstFailure env sub) := by
  unfold put_item firstFailure
  repeat' split <;> try rfl
  all_goals simp_all [checkOrder]
  all_goals (repeat' split <;> try simp_all)
  all_goals omega

/-- C2 counterexample: a submission failing the signature check and one
failing the protobuf decode are both surfaced through the generic propagated
error path (an internal server error distinguished only by its body text),
not through dedicated rejection outcomes: so the claim that every failed
check yields a specific non-generic rejection is false on the code. -/
theorem invalid_signature_and_malformed_item_generic :
    (put_item envBadSig sub0).outcome = Outcome.genericError "Invalid signature" ∧
    (put_item envBadDecode sub0).outcome = Outcome.genericError "bad protobuf" := by
  refine ⟨?_, ?_⟩ <;> decide

/-- C2 (amended): the length presence, length parse, size, unknown user,
future timestamp and quota failures each surface their own specific
response, while an invalid signature and a malformed item are surfaced by
propagating a generic error whose body is the error text. -/
theorem admission_rejection_reasons (env : Env) (sub : Submission) :
    (sub.content_length = none →
      (put_item env sub).outcome = Outcome.lengthRequired "Must include length header.") ∧
    (∀ header, sub.content_length = some header → parse_usize header = none →
      (put_item env sub).outcome = Outcome.badRequest "Error parsing Length header.") ∧
    (∀ header length, sub.content_length = some header → parse_usize header = some length →
      length > MAX_ITEM_SIZE →
      (put_item env sub).outcome =
        Outcome.payloadTooLarge ( "Item must be <= " ++ toString MAX_ITEM_SIZE ++ " bytes")) ∧
    (length_ok sub = true → env.backend.user_item_exists sub.user sub.signature = false →
      env.backend.user_known sub.user = false →
      (put_item env sub).outcome = Outcome.forbidden "Unknown user ID") ∧
    (length_ok sub = true → env.backend.user_item_exists sub.user sub.signature = false →
      env.backend.user_known sub.user = true →
      env.sigValid sub.signature sub.user (accumulate_body sub.chunks) = false →
      (put_item env sub).outcome = Outcome.genericError "Invalid signature") ∧
    (∀ e, length_ok sub = true → env.backend.user_item_exists sub.user sub.signature = false →
      env.backend.user_known sub.user = true →
      env.sigValid sub.signature sub.user (accumulate_body sub.chunks) = true →
      decode_and_validate env (accumulate_body sub.chunks) = Except.error e →
      (put_item env sub).outcome = Outcome.genericError e) ∧
    (∀ item, length_ok sub = true → env.backend.user_item_exists sub.user sub.signature = false →
      env.backend.user_known sub.user = true →
      env.sigValid sub.signature sub.user (accumulate_body sub.chunks) = true →
      decode_and_validate env (accumulate_body sub.chunks) = Except.ok item →
      item.timestamp_ms_utc > env.now.unix_utc_ms →
      (put_item env sub).outcome = Outcome.badRequest futureTsMsg) ∧
    (∀ item d, length_ok sub = true →
      env.backend.user_item_exists sub.user sub.signature = false →
      env.backend.user_known sub.user = true →
      env.sigValid sub.signature sub.user (accumulate_body sub.chunks) = true →
      decode_and_validate env (accumulate_body sub.chunks) = Except.ok item →
      item.timestamp_ms_utc ≤ env.now.unix_utc_ms →
      env.backend.quota_check_item sub.user (accumulate_body sub.chunks) item = some d →
      (put_item env sub).outcome = Outcome.insufficientStorage d) := by
  refine ⟨?_, ?_, ?_, ?_, ?_, ?_, ?_, ?_⟩
  · intro h
    simp [put_item, h]
  · intro header h hn
    simp [put_item, h, hn]
  · intro header length h hn hgt
    simp [put_item, h, hn, hgt]
  · intro hl hex hk
    unfold length_ok at hl
    unfold put_item
    repeat' split <;> try simp_all
    all_goals (exfalso; omega)
  · intro hl hex hk h4
    unfold length_ok at hl
    unfold put_item
    repeat' split <;> try simp_all
    all_goals (exfalso; omega)
  · intro e hl hex hk h4 h5
    unfold length_ok at hl
    unfold put_item
    repeat' split <;> try simp_all
    all_goals (exfalso; omega)
  · intro item hl hex hk h4 h5 h6
    unfold length_ok at hl
    unfold put_item
    repeat' split <;> try simp_all
    all_goals (exfalso; omega)
  · intro item d hl hex hk h4 h5 h6 h7
    unfold length_ok at hl
    unfold put_item
    repeat' split <;> try simp_all
    all_goals (exfalso; omega)

/-- Concrete discharge of admission_rejection_reasons: a request without a
length header gets the 411 response, and an invalid signature at a concrete
input gets the propagated generic error. -/
theorem admission_rejection_reasons_witness :
    (put_item env0 subNoLen).outcome = Outcome.lengthRequired "Must include length header." ∧
    (put_item envBadSig sub0).outcome = Outcome.genericError "Invalid signature" :=
  ⟨(admission_rejection_reasons env0 subNoLen).1 rfl,
   (admission_rejection_reasons envBadSig sub0).2.2.2.2.1 (by decide) (by decide)
     (by decide) rfl⟩

/-- Helper characterizing the fully successful run of put_item: when every
stage passes, the outcome is 201 created, all stages ran, and exactly the
row built from the received bytes is appended. -/
theorem put_item_creates (env : Env) (sub : Submission) (item : Item)
    (hl : length_ok sub = true)
    (hex : env.backend.user_item_exists sub.user sub.signature = false)
    (hk : env.backend.user_known sub.user = true)
    (hsig : env.sigValid sub.signature sub.user (accumulate_body sub.chunks) = true)
    (hdec : decode_and_validate env (accumulate_body sub.chunks) = Except.ok item)
    (hts : item.timestamp_ms_utc ≤ env.now.unix_utc_ms)
    (hq : env.backend.quota_check_item sub.user (accumulate_body sub.chunks) item = none) :
    put_item env sub =
      { outcome := Outcome.created
          ( "OK. Received " ++ toString (accumulate_body sub.chunks).length ++ " bytes.")
        trace := checkOrder
        rows := env.backend.rows ++
          [{ user := sub.user, signature := sub.signature
             timestamp := { unix_utc_ms := item.timestamp_ms_utc }
             received := env.now, item_bytes := accumulate_body sub.chunks }] } := by
  unfold length_ok at hl
  unfold put_item
  repeat' split <;> try simp_all [checkOrder]
  all_goals (exfalso; omega)

/-- C3 evidence: with a declared length of 10 (within the maximum) but an
actual body of MAX_ITEM_SIZE + 1 bytes, the pipeline buffers the whole body
without aborting, runs every later stage and persists the oversized row. -/
theorem oversized_body_fully_buffered :
    (accumulate_body subLiar.chunks).length = MAX_ITEM_SIZE + 1 ∧
    (put_item env0 subLiar).trace = checkOrder ∧
    (put_item env0 subLiar).rows.map (fun r => r.item_bytes.length) = [MAX_ITEM_SIZE + 1] := by
  have hacc : accumulate_body subLiar.chunks = List.replicate (MAX_ITEM_SIZE + 1) 0 := by
    simp [accumulate_body, subLiar]
  have hlen : (accumulate_body subLiar.chunks).length = MAX_ITEM_SIZE + 1 := by
    rw [hacc, List.length_replicate]
  have hq : env0.backend.quota_check_item subLiar.user (accumulate_body subLiar.chunks) item0
      = none := by
    have hle : env0.backend.usage subLiar.user + (accumulate_body subLiar.chunks).length ≤
        env0.backend.budget subLiar.user := by
      rw [hlen]
      norm_num [env0, backend0, MAX_ITEM_SIZE]
    simp [Backend.quota_check_item, hle]
  have h := put_item_creates env0 subLiar item0 (by decide) (by decide) (by decide)
    rfl rfl (by decide) hq
  refine ⟨hlen, ?_, ?_⟩
  · rw [h]
  · rw [h]
    simp only [show env0.backend.rows = [] from rfl, List.nil_append, List.map_cons,
      List.map_nil]
    rw [hlen]

/-- C4: Paginator::accept propagates a mapping failure as the fatal error of
the whole query, passes over filtered items without counting them against
the bound, stops the producer with has_more set once the bound is reached,
and otherwise appends the item and continues. -/
theorem paginator_accept_cases {T In E : Type} (p : Paginator T In E) (input : In) :
    (∀ e, p.mapper input = Except.error e → p.accept input = Except.error e) ∧
    (∀ item, p.mapper input = Except.ok item → p.filter item = false →
      p.accept input = Except.ok (true, p)) ∧
    (∀ item, p.mapper input = Except.ok item → p.filter item = true →
      p.items.length ≥ p.max_len →
      p.accept input = Except.ok (false, { p with has_more := true })) ∧
    (∀ item, p.mapper input = Except.ok item → p.filter item = true →
      p.items.length < p.max_len →
      p.accept input = Except.ok (true, { p with items := p.items ++ [item] })) := by
  refine ⟨?_, ?_, ?_, ?_⟩
  · intro e h
    simp [Paginator.accept, h]
  · intro item h hf
    simp [Paginator.accept, h, hf]
  · intro item h hf hlen
    simp [Paginator.accept, h, hf, hlen]
  · intro item h hf hlen
    simp [Paginator.accept, h, hf, not_le.mpr hlen]

/-- Concrete runs of every branch of paginator_accept_cases. -/
theorem paginator_accept_cases_witness :
    pag0.accept 0 = Except.error "bad row" ∧
    pag0.accept 2 = Except.ok (true, pag0) ∧
    pagFull.accept 3 = Except.ok (false, { pagFull with has_more := true }) ∧
    pag0.accept 3 = Except.ok (true, { pag0 with items := pag0.items ++ [3] }) :=
  ⟨(paginator_accept_cases pag0 0).1 "bad row" rfl,
   (paginator_accept_cases pag0 2).2.1 2 rfl rfl,
   (paginator_accept_cases pagFull 3).2.2.1 3 rfl rfl (by decide),
   (paginator_accept_cases pag0 3).2.2.2 3 rfl rfl (by decide)⟩

/-- C5: a submission whose (user, signature) key already has a stored row is
answered with the 202 accepted outcome and is a no-op: the store is
unchanged and still holds exactly one row for that key, and neither the
signature check nor the quota check nor persistence runs. -/
theorem duplicate_submission_is_noop (env : Env) (sub : Submission)
    (hl : length_ok sub = true)
    (hdup : env.backend.user_item_exists sub.user sub.signature = true)
    (hone : env.backend.rows.countP
      (fun r => decide (r.user = sub.user ∧ r.signature = sub.signature)) = 1) :
    (put_item env sub).outcome = Outcome.accepted "Item already exists" ∧
    (put_item env sub).rows = env.backend.rows ∧
    (put_item env sub).rows.countP
      (fun r => decide (r.user = sub.user ∧ r.signature = sub.signature)) = 1 ∧
    Check.signatureCheck ∉ (put_item env sub).trace ∧
    Check.quotaCheck ∉ (put_item env sub).trace ∧
    Check.persist ∉ (put_item env sub).trace := by
  unfold length_ok at hl
  unfold put_item
  repeat' split <;> try simp_all
  all_goals (exfalso; omega)

/-- Concrete duplicate submission: the store already holds row0 and the
request for the same key is a no-op with the accepted outcome. -/
theorem duplicate_submission_is_noop_witness :
    (put_item envDup sub0).outcome = Outcome.accepted "Item already exists" ∧
    (put_item envDup sub0).rows = [row0] := by
  have h := duplicate_submission_is_noop envDup sub0 (by decide) (by decide) (by decide)
  exact ⟨h.1, h.2.1.trans rfl⟩

/-- C6: an item whose claimed timestamp is strictly after the node clock is
rejected with the future-timestamp response and nothing is persisted, even
though the declared length, existence, access, signature, decode and
validation stages all passed. -/
theorem future_timestamp_rejected (env : Env) (sub : Submission) (item : Item)
    (hl : length_ok sub = true)
    (hdup : env.backend.user_item_exists sub.user sub.signature = false)
    (hk : env.backend.user_known sub.user = true)
    (hsig : env.sigValid sub.signature sub.user (accumulate_body sub.chunks) = true)
    (hdec : decode_and_validate env (accumulate_body sub.chunks) = Except.ok item)
    (hfut : item.timestamp_ms_utc > env.now.unix_utc_ms) :
    (put_item env sub).outcome = Outcome.badRequest futureTsMsg ∧
    (put_item env sub).rows = env.backend.rows ∧
    Check.persist ∉ (put_item env sub).trace := by
  unfold length_ok at hl
  unfold put_item
  repeat' split <;> try simp_all
  all_goals (exfalso; omega)

/-- Concrete future-dated submission: the claimed timestamp 5 is after the
node clock 3, so the item is rejected and the store stays empty. -/
theorem future_timestamp_rejected_witness :
    (put_item envFut sub0).outcome = Outcome.badRequest futureTsMsg ∧
    (put_item envFut sub0).rows = [] := by
  have h := future_timestamp_rejected envFut sub0 item0 (by decide) (by decide) (by decide)
    rfl rfl (by decide)
  exact ⟨h.1, h.2.1.trans rfl⟩

/-- C7: when put_item answers created, the signature check accepted exactly
the accumulated body bytes, the protobuf decode ran on those same bytes, and
the persisted row carries those bytes unchanged as item_bytes together with
the claimed timestamp embedded in them. -/
theorem stored_bytes_are_verified_bytes (env : Env) (sub : Submission) (item : Item)
    (msg : String)
    (hout : (put_item env sub).outcome = Outcome.created msg)
    (hdec : decode_and_validate env (accumulate_body sub.chunks) = Except.ok item) :
    env.sigValid sub.signature sub.user (accumulate_body sub.chunks) = true ∧
    env.decodeItem (accumulate_body sub.chunks) = Except.ok item ∧
    (put_item env sub).rows = env.backend.rows ++
      [{ user := sub.user, signature := sub.signature
         timestamp := { unix_utc_ms := item.timestamp_ms_utc }
         received := env.now, item_bytes := accumulate_body sub.chunks }] := by
  have hdi : env.decodeItem (accumulate_body sub.chunks) = Except.ok item := by
    unfold decode_and_validate at hdec
    repeat' split at hdec <;> simp_all
  refine ⟨?_, hdi, ?_⟩
  · unfold put_item at hout
    repeat' split at hout <;> try simp_all
  · unfold put_item at hout ⊢
    repeat' split at hout <;> try simp_all
    all_goals (repeat' split <;> try simp_all)
    all_goals (exfalso; omega)

/-- Concrete created run: the stored row of the accepted submission holds
exactly the received bytes and their embedded timestamp. -/
theorem stored_bytes_are_verified_bytes_witness :
    env0.sigValid sub0.signature sub0.user (accumulate_body sub0.chunks) = true ∧
    env0.decodeItem (accumulate_body sub0.chunks) = Except.ok item0 ∧
    (put_item env0 sub0).rows = env0.backend.rows ++
      [{ user := sub0.user, signature := sub0.signature
         timestamp := { unix_utc_ms := item0.timestamp_ms_utc }
         received := env0.now, item_bytes := accumulate_body sub0.chunks }] :=
  stored_bytes_are_verified_bytes env0 sub0 item0 "OK. Received 3 bytes." (by decide) rfl

/-- Helper: one accept step preserves the effective bound and cannot push
the page past it. -/
theorem accept_preserves_bound {T In E : Type} (p p2 : Paginator T In E) (input : In)
    (b : Bool) (h : p.accept input = Except.ok (b, p2)) :
    p2.max_len = p.max_len ∧
    (p.items.length ≤ p.max_len → p2.items.length ≤ p.max_len) := by
  unfold Paginator.accept at h
  cases hm : p.mapper input with
  | error e =>
    rw [hm] at h
    cases h
  | ok item =>
    rw [hm] at h
    by_cases hf : p.filter item
    · simp only [hf, Bool.not_true, Bool.false_eq_true, if_false] at h
      by_cases hlen : p.items.length ≥ p.max_len
      · rw [if_pos hlen] at h
        simp only [Except.ok.injEq, Prod.mk.injEq] at h
        obtain ⟨hb, hp2⟩ := h
        subst hp2
        exact ⟨rfl, fun hl => hl⟩
      · rw [if_neg hlen] at h
        simp only [Except.ok.injEq, Prod.mk.injEq] at h
        obtain ⟨hb, hp2⟩ := h
        subst hp2
        refine ⟨rfl, fun hl => ?_⟩
        simp only [List.length_append, List.length_cons, List.length_nil]
        omega
    · simp only [hf, Bool.not_false, if_true] at h
      simp only [Except.ok.injEq, Prod.mk.injEq] at h
      obtain ⟨hb, hp2⟩ := h
      subst hp2
      exact ⟨rfl, fun hl => hl⟩

/-- Helper: a full paginated run started within the bound ends within the
bound, whatever rows the producer feeds in. -/
theorem run_items_bounded {T In E : Type} (inputs : List In) (p q : Paginator T In E)
    (h : p.run inputs = Except.ok q) (hl : p.items.length ≤ p.max_len) :
    q.items.length ≤ q.max_len := by
  induction inputs generalizing p with
  | nil =>
    unfold Paginator.run at h
    simp only [Except.ok.injEq] at h
    subst h
    exact hl
  | cons input rest ih =>
    unfold Paginator.run at h
    cases ha : p.accept input with
    | error e =>
      rw [ha] at h
      cases h
    | ok pr =>
      obtain ⟨b, p2⟩ := pr
      rw [ha] at h
      have hp := accept_preserves_bound p p2 input b ha
      cases b with
      | false =>
        replace h : Except.ok p2 = Except.ok q := h
        simp only [Except.ok.injEq] at h
        subst h
        rw [hp.1]
        exact hp.2 hl
      | true =>
        replace h : p2.run rest = Except.ok q := h
        exact ih p2 h (by rw [hp.1]; exact hp.2 hl)

/-- Helper: the single-user page collector never returns more than the fixed
bound of 10 items. -/
theorem get_user_items_collect_bound (decodeItem : List Nat → Except String Item)
    (rows : List ItemRow) (items res : List IndexPageItem)
    (h : get_user_items_collect decodeItem rows items = Except.ok res)
    (hl : items.length < get_user_items_max_items) :
    res.length ≤ get_user_items_max_items := by
  induction rows generalizing items with
  | nil =>
    unfold get_user_items_collect at h
    simp only [Except.ok.injEq] at h
    subst h
    omega
  | cons row rest ih =>
    unfold get_user_items_collect at h
    cases hd : decodeItem row.item_bytes with
    | error e =>
      rw [hd] at h
      cases h
    | ok item =>
      rw [hd] at h
      repeat' split at h <;> try simp_all
      · exact ih _ h (by simp only [List.length_append, List.length_cons, List.length_nil]; omega)
      · subst h
        simp only [List.length_append, List.length_cons, List.length_nil]
        omega
      · exact ih _ h hl

/-- Helper: one step of the view_homepage item callback preserves the page
bound: a filtered or bound-stopped row leaves the items unchanged, and a row
is appended only while the count is still below max_items. -/
theorem view_homepage_accept_bound (decodeItem : List Nat → Except String Item)
    (max_items : Nat) (state st2 : List IndexPageItem × Bool) (row : ItemDisplayRow) (b : Bool)
    (h : view_homepage_accept decodeItem max_items state row = Except.ok (b, st2))
    (hl : state.1.length ≤ max_items) :
    st2.1.length ≤ max_items := by
  unfold view_homepage_accept at h
  cases hd : decodeItem row.item.item_bytes with
  | error e =>
    rw [hd] at h
    cases h
  | ok item =>
    rw [hd] at h
    replace h :
        (if (!display_by_default item) = true then Except.ok (true, state)
         else if state.1.length ≥ max_items then Except.ok (false, (state.1, true))
         else Except.ok (true, (state.1 ++ [{ row := row, item := item }], state.2))) =
        Except.ok (b, st2) := h
    by_cases hdisp : (!display_by_default item) = true
    · rw [if_pos hdisp] at h
      simp only [Except.ok.injEq, Prod.mk.injEq] at h
      obtain ⟨hb, hst⟩ := h
      subst hst
      exact hl
    · rw [if_neg hdisp] at h
      by_cases hfull : state.1.length ≥ max_items
      · rw [if_pos hfull] at h
        simp only [Except.ok.injEq, Prod.mk.injEq] at h
        obtain ⟨hb, hst⟩ := h
        subst hst
        exact hl
      · rw [if_neg hfull] at h
        simp only [Except.ok.injEq, Prod.mk.injEq] at h
        obtain ⟨hb, hst⟩ := h
        subst hst
        simp only [List.length_append, List.length_cons, List.length_nil]
        omega

/-- Helper: a homepage display run started within the bound ends within the
bound, whatever rows the producer feeds in. -/
theorem view_homepage_run_bounded (decodeItem : List Nat → Except String Item)
    (max_items : Nat) (rows : List ItemDisplayRow) (state result : List IndexPageItem × Bool)
    (h : view_homepage_run decodeItem max_items rows state = Except.ok result)
    (hl : state.1.length ≤ max_items) :
    result.1.length ≤ max_items := by
  induction rows generalizing state with
  | nil =>
    unfold view_homepage_run at h
    simp only [Except.ok.injEq] at h
    subst h
    exact hl
  | cons row rest ih =>
    unfold view_homepage_run at h
    cases ha : view_homepage_accept decodeItem max_items state row with
    | error e =>
      rw [ha] at h
      cases h
    | ok pr =>
      obtain ⟨b, st2⟩ := pr
      rw [ha] at h
      have hst2 := view_homepage_accept_bound decodeItem max_items state st2 row b ha hl
      cases b with
      | false =>
        replace h : Except.ok st2 = Except.ok result := h
        simp only [Except.ok.injEq] at h
        subst h
        exact hst2
      | true =>
        replace h : view_homepage_run decodeItem max_items rest st2 = Except.ok result := h
        exact ih st2 h hst2

/-- C8 counterexample: the user feed display listing with no count requested
runs with an effective bound of 100, not 20: feeding it 21 post rows
returns 21 items, more than the claimed default of 20. -/
theorem feed_default_count_not_20 :
    feedPagNoCount.max_len = 100 ∧
    (match feedPagNoCount.run (List.replicate 21 drow0) with
     | Except.ok q => q.items.length
     | Except.error _ => 0) = 21 :=
  ⟨rfl, by decide⟩

/-- C8 (amended): the homepage display listing defaults its count to 20 and
clamps a requested count into one to one hundred; the user feed display
listing clamps into the same range but defaults to 100; the three proto3
listings raise max_items to 1000; the single-user page takes no parameters
and collects at most its fixed bound of 10; where a before cursor exists it
defaults to now; and no listing run returns more items than its effective
bound: neither the Paginator based runs, nor the single-user collector, nor
the inline homepage display run. -/
theorem listing_parameter_bounds :
    (∀ b : Option Int, view_homepage_max_items { before := b, count := none } = 20) ∧
    (∀ (b : Option Int) (c : Nat),
      view_homepage_max_items { before := b, count := some c } = bound c 1 100) ∧
    (∀ pagination now, pagination.before = none →
      view_homepage_before pagination now = now) ∧
    (∀ (T In E : Type) (p : Paginator T In E) (now : Timestamp), p.params.before = none →
      p.before now = now) ∧
    (∀ pagination dec, (get_user_feed_paginator pagination dec).max_items = 100) ∧
    (∀ pagination dec, pagination.count = none →
      (get_user_feed_paginator pagination dec).max_len = 100) ∧
    (∀ pagination dec c, pagination.count = some c →
      (get_user_feed_paginator pagination dec).max_len = bound c 1 100) ∧
    (∀ pagination dec, (feed_item_list_paginator pagination dec).max_items = 1000 ∧
      (user_item_list_paginator pagination dec).max_items = 1000 ∧
      (homepage_item_list_paginator pagination dec).max_items = 1000) ∧
    (∀ (T In E : Type) (inputs : List In) (p q : Paginator T In E),
      p.run inputs = Except.ok q → p.items.length ≤ p.max_len →
      q.items.length ≤ q.max_len) ∧
    (∀ dec rows res, get_user_items_collect dec rows [] = Except.ok res →
      res.length ≤ get_user_items_max_items) ∧
    (∀ dec max_items rows state result,
      view_homepage_run dec max_items rows state = Except.ok result →
      state.1.length ≤ max_items → result.1.length ≤ max_items) := by
  refine ⟨?_, ?_, ?_, ?_, ?_, ?_, ?_, ?_, ?_, ?_, ?_⟩
  · intro b
    simp [view_homepage_max_items]
  · intro b c
    simp [view_homepage_max_items]
  · intro pagination now h
    simp [view_homepage_before, h]
  · intro T In E p now h
    simp [Paginator.before, h]
  · intro pagination dec
    simp [get_user_feed_paginator, Paginator.new]
  · intro pagination dec h
    simp [get_user_feed_paginator, Paginator.new, Paginator.max_len, h]
  · intro pagination dec c h
    simp [get_user_feed_paginator, Paginator.new, Paginator.max_len, h]
  · intro pagination dec
    refine ⟨rfl, rfl, rfl⟩
  · intro T In E inputs p q h hl
    exact run_items_bounded inputs p q h hl
  · intro dec rows res h
    exact get_user_items_collect_bound dec rows [] res h (by decide)
  · intro dec max_items rows state result h hl
    exact view_homepage_run_bounded dec max_items rows state result h hl

/-- Concrete discharges of listing_parameter_bounds: the default cursor, the
feed clamp of an oversized requested count, a one-row collect run, and a
one-row homepage display run. -/
theorem listing_parameter_bounds_witness :
    view_homepage_before { before := none, count := none } { unix_utc_ms := 77 } =
      { unix_utc_ms := 77 } ∧
    (get_user_feed_paginator { before := none, count := some 500 }
      (fun _ => Except.ok item0)).max_len = bound 500 1 100 ∧
    ([ipi0] : List IndexPageItem).length ≤ get_user_items_max_items ∧
    (([ipi0], false) : List IndexPageItem × Bool).1.length ≤ 20 :=
  ⟨(listing_parameter_bounds).2.2.1 { before := none, count := none } { unix_utc_ms := 77 } rfl,
   (listing_parameter_bounds).2.2.2.2.2.2.1 { before := none, count := some 500 }
     (fun _ => Except.ok item0) 500 rfl,
   (listing_parameter_bounds).2.2.2.2.2.2.2.2.2.1 (fun _ => Except.ok item0) [row0] [ipi0]
     rfl,
   (listing_parameter_bounds).2.2.2.2.2.2.2.2.2.2 (fun _ => Except.ok item0) 20 [drow0]
     ([], false) ([ipi0], false) rfl (by decide)⟩

/-- C9: a next-page link is offered exactly when has_more is set and the
page is nonempty, and its cursor is the claimed timestamp of the last item
of the page; this holds for the paginator link builder and for the homepage
variant (which echoes the clamped max_items as the count). -/
theorem next_page_cursor_from_last_item {In E : Type}
    (p : Paginator IndexPageItem In E) (base_url : String) :
    (p.has_more = false → p.more_items_link base_url = none) ∧
    (∀ last, p.has_more = true → p.items.getLast? = some last → p.params.count = none →
      p.more_items_link base_url =
        some (base_url ++ "?before=" ++ toString last.item.timestamp_ms_utc)) ∧
    (∀ last c, p.has_more = true → p.items.getLast? = some last → p.params.count = some c →
      p.more_items_link base_url =
        some (base_url ++ "?before=" ++ toString last.item.timestamp_ms_utc ++
          "&count=" ++ toString c)) ∧
    (∀ items pagination max_items,
      view_homepage_more_href false items pagination max_items = none) ∧
    (∀ items pagination max_items last, items.getLast? = some last →
      pagination.count = none →
      view_homepage_more_href true items pagination max_items =
        some ( "/?before=" ++ toString last.item.timestamp_ms_utc)) ∧
    (∀ items pagination max_items last c, items.getLast? = some last →
      pagination.count = some c →
      view_homepage_more_href true items pagination max_items =
        some ( "/?before=" ++ toString last.item.timestamp_ms_utc ++
          "&count=" ++ toString max_items)) := by
  refine ⟨?_, ?_, ?_, ?_, ?_, ?_⟩
  · intro h
    simp [Paginator.more_items_link, h]
  · intro last h hlast hc
    simp [Paginator.more_items_link, h, hlast, hc]
  · intro last c h hlast hc
    simp [Paginator.more_items_link, h, hlast, hc]
  · intro items pagination max_items
    simp [view_homepage_more_href]
  · intro items pagination max_items last hlast hc
    simp [view_homepage_more_href, hlast, hc]
  · intro items pagination max_items last c hlast hc
    simp [view_homepage_more_href, hlast, hc]

/-- Concrete next-page link: a full feed page with has_more carries the last
item timestamp as the cursor and echoes the requested count. -/
theorem next_page_cursor_from_last_item_witness :
    pagMore.more_items_link "" =
      some ( "" ++ "?before=" ++ toString ipi0.item.timestamp_ms_utc ++
        "&count=" ++ toString 20) :=
  (next_page_cursor_from_last_item pagMore "").2.2.1 ipi0 20 rfl rfl rfl

/-- C10: a stored item whose decoded bytes carry no recognized variant tag
makes the single-item HTML lookup answer an internal server error with the
body "No known item type provided.", although the same item maps to the
UNKNOWN entry type, passes the proto3 listing filter, and is accepted by
the validation contract. -/
theorem unknown_item_type_internal_error (env : Env) (u : UserID) (s : Signature)
    (row : ItemRow) (item : Item)
    (hrow : env.backend.user_item u s = some row)
    (hdec : env.decodeItem row.item_bytes = Except.ok item)
    (hprof : profile_decode_ok env u = true)
    (hty : item.item_type = none) :
    show_item env u s = ShowItemResponse.internalServerError "No known item type provided." ∧
    (item_to_entry item u s).item_type = ItemType.UNKNOWN ∧
    user_item_list_filter (item_to_entry item u s) = true ∧
    validate_spec item = Except.ok () := by
  unfold profile_decode_ok at hprof
  unfold show_item
  refine ⟨?_, ?_, ?_, ?_⟩
  · simp only [hrow, hdec]
    cases hpu : env.backend.user_profile u with
    | none => simp [hpu, hty]
    | some prow =>
      rw [hpu] at hprof
      cases hpd : env.decodeItem prow.item_bytes with
      | error e =>
        simp [hpd] at hprof
      | ok profItem =>
        simp [hpu, hpd, hty]
  · simp [item_to_entry, hty]
  · simp [user_item_list_filter]
  · simp [validate_spec, hty]

/-- Concrete unknown-variant lookup: envU stores rowU whose bytes decode to
an item with no variant tag, and show_item answers the internal error. -/
theorem unknown_item_type_internal_error_witness :
    show_item envU u0 s0 = ShowItemResponse.internalServerError "No known item type provided." ∧
    (item_to_entry itemU u0 s0).item_type = ItemType.UNKNOWN ∧
    user_item_list_filter (item_to_entry itemU u0 s0) = true ∧
    validate_spec itemU = Except.ok () :=
  unknown_item_type_internal_error envU u0 s0 rowU itemU (by decide) rfl rfl rfl

end FeoBlog
